import Mathlib

/-!
Shallow embedding of `src/app.py` (PDF Tutor, a single Streamlit script).

Conventions of the embedding:
* Python strings are Lean `String`s; Python `None`-able strings are `Option String`.
* Python truthiness of a string or optional string is made explicit (`pyTruthy`,
  and `if s.isEmpty` branches mirroring `x or ""`).
* Python `str.strip()` is embedded as `pyStrip`, dropping whitespace characters
  from both ends of the character list.
* The pdfplumber library is external: a parsed PDF is modelled as the list of
  per-page results of `page.extract_text()` (`Option String`, `none` when the
  page has no extractable text), in physical page order.
* The OpenAI chat-completion call is external: it is modelled as a function
  `remote : String → List (String × String) → Except String String` taking the
  model name and the role-tagged messages, returning either the first choice's
  message content or the exception text.  The fixed `temperature=0.3` argument
  of the source call carries no information for the properties proved here and
  is not part of the model.
* Streamlit effects (`st.error`, `st.warning`, `st.stop`, displayed answers)
  are modelled as explicit outcome values.
-/

/-- Python truthiness of an optional string: `None` and `""` are falsy. -/
def pyTruthy : Option String → Bool
  | none => false
  | some s => !s.isEmpty

/-- Python `str.strip()`: drop whitespace from both ends of the string. -/
def pyStrip (s : String) : String :=
  String.mk (((s.data.dropWhile Char.isWhitespace).reverse.dropWhile Char.isWhitespace).reverse)

/-- The expression `page.extract_text() or ""` of app.py line 63: a falsy
result (`None` or the empty string) is replaced by the empty string. -/
def extractTextOrEmpty : Option String → String
  | none => ""
  | some s => if s.isEmpty then "" else s

/-- The extraction loop of `read_pdf_pages` (app.py lines 58-65): starting from
an empty list, append `(page.extract_text() or "").strip()` for each page of
the parsed document, in order.  The parsed document is modelled as the list of
per-page `extract_text()` results. -/
def read_pdf_pages (pdfPages : List (Option String)) : List String :=
  pdfPages.foldl (fun texts page => texts ++ [pyStrip (extractTextOrEmpty page)]) []

/-- State of the extraction cache: the memo table keyed by `(path, mtime)`
together with a counter of how many underlying extractions have run. -/
structure CacheState where
  table : List ((String × Int) × List String)
  extractions : Nat

/-- Modelled from the spec: the memoization wrapper `@st.cache_data` applied to
`read_pdf_pages` (app.py line 55) is provided by the external Streamlit
framework, so its code is not part of this repository.  Following §4.2 of the
spec (`get_or_compute(path, mtime) -> sequence_of_PageText`), a hit on the
`(path, mtime)` key returns the stored sequence without re-extracting; a miss
runs the extractor (modelled by `extract`, a deterministic function of the key,
and counted by `extractions`) and stores the result under the new key.  The
cache key being exactly the argument pair `(path, mtime)` comes from the
source: those are the parameters of the decorated function. -/
def get_or_compute (extract : String → Int → List String) (s : CacheState)
    (path : String) (mtime : Int) : List String × CacheState :=
  match s.table.lookup (path, mtime) with
  | some texts => (texts, s)
  | none =>
      let texts := extract path mtime
      (texts, ⟨((path, mtime), texts) :: s.table, s.extractions + 1⟩)

/-- Outcome of the chapter-loading section of the script (app.py lines 67-73):
either an exception escaped the script unhandled, or the script stopped with a
visible error message, or the page texts were obtained and rendering goes on. -/
inductive LoadOutcome where
  | uncaughtException (e : String)
  | errorStopped (msg : String)
  | rendered (pages : List String)
deriving DecidableEq

/-- The chapter-loading flow of app.py lines 67-73.  The body of
`read_pdf_pages` contains no exception handler and no handler surrounds the
call site, so a failure of the external PDF parser (modelled as
`Except.error`) propagates out of the script unhandled.  Only the zero-pages
case is surfaced with `st.error` followed by `st.stop`. -/
def load_chapter (extraction : Except String (List String)) : LoadOutcome :=
  match extraction with
  | Except.error e => LoadOutcome.uncaughtException e
  | Except.ok pages =>
      if pages.length = 0 then
        LoadOutcome.errorStopped "Couldn\x27t read any pages from this PDF."
      else
        LoadOutcome.rendered pages

/-- The context-window entry list of app.py lines 80-85: optional previous
entry, mandatory current entry, optional next entry, each an f-string of a
bracketed label line followed by the page text.  `page_idx` is 1-based. -/
def context_texts (pages : List String) (page_idx : Nat) : List String :=
  (if page_idx > 1 then
    ["[Prev: Page " ++ toString (page_idx - 1) ++ "]\n" ++ pages.getD (page_idx - 2) ""]
  else []) ++
  ["[Current: Page " ++ toString page_idx ++ "]\n" ++ pages.getD (page_idx - 1) ""] ++
  (if page_idx < pages.length then
    ["[Next: Page " ++ toString (page_idx + 1) ++ "]\n" ++ pages.getD page_idx ""]
  else [])

/-- The joined context window of app.py line 88:
`"\n\n-----\n\n".join([t for t in context_texts if t])` — the comprehension
keeps only truthy (non-empty) entries. -/
def context_text (pages : List String) (page_idx : Nat) : String :=
  String.intercalate "\n\n-----\n\n" ((context_texts pages page_idx).filter (fun t => decide (t ≠ "")))

/-- The template catalog `QUESTION_TEMPLATES` of app.py lines 97-106, in source
order. -/
def QUESTION_TEMPLATES : List (String × String) := [
  ("Summarize key points",
   "Summarize the most important ideas on this page in simple bullet points for a 9th grade student."),
  ("Explain like I\x27m in high school",
   "Explain the page content in very simple words for a high school student. Avoid jargon. Use short sentences and small examples."),
  ("Explain like I\x27m in elementary school",
   "Explain the page as if I am in grade 5. Use everyday examples and comparisons a child understands."),
  ("Make quiz questions",
   "Create 3 short multiple-choice questions (with 4 options each) from this page. Mark the correct answers clearly in the end."),
  ("Define difficult words",
   "List any difficult or technical words on this page and define them in very simple terms."),
  ("Step-by-step explanation",
   "Break down the content of this page step-by-step in clear, numbered points."),
  ("Real-life example",
   "Give one simple real-life example that matches the idea on this page. Keep it relevant for a school student."),
  ("Quick recap (30 seconds)",
   "Give a 4–6 bullet ‘quick recap’ of this page as if I only have 30 seconds before a test.")]

/-- The question-selection branch of app.py lines 115-118: in custom mode the
typed free text is used, otherwise the catalog entry for the selected label
(`QUESTION_TEMPLATES[mode]`; the UI guarantees the label is a key, so the
lookup default is never reached for the modes the UI offers). -/
def question (mode : String) (typed : String) : String :=
  if mode = "Custom question" then typed
  else (QUESTION_TEMPLATES.lookup mode).getD ""

/-- The fixed system instruction built in `call_llm` (app.py lines 133-138),
a concatenation of four adjacent string literals. -/
def system_prompt : String :=
  "You are a patient, friendly tutor for school students (elementary to high school). " ++
  "Answer as simply as possible using ONLY the provided text (which includes the selected page plus its neighbors). " ++
  "If the answer is not in the provided text, say: \x27I can\x27t find this in the provided pages.\x27 " ++
  "Prefer bullet points, short sentences, and clear examples. Avoid jargon."

/-- The user instruction built in `call_llm` (app.py lines 140-151), with
`bounded = (context_text or "")` made explicit. -/
def user_prompt (context_text question : String) : String :=
  let bounded := if context_text.isEmpty then "" else context_text
  "Context (selected page with ±1 neighbors):\n---\n" ++ bounded ++ "\n---\n\n" ++
  "Student request: " ++ question ++ "\n\n" ++
  "Rules:\n" ++
  "1) Use ONLY the text above.\n" ++
  "2) Keep it simple for a school student.\n" ++
  "3) Use bullets or short steps when helpful.\n" ++
  "4) If info is missing, say you can\x27t find it in the provided pages."

/-- The role-tagged message list passed to the chat-completion call
(app.py lines 156-159). -/
def compose_messages (context_text question : String) : List (String × String) :=
  [("system", system_prompt), ("user", user_prompt context_text question)]

/-- The function `call_llm` of app.py lines 124-164.  `openai_available`
models `OpenAI is not None`; `api_key` is the optional environment credential;
`remote` models `client.chat.completions.create` followed by
`resp.choices[0].message.content`: `Except.ok content` on success and
`Except.error e` when any exception is raised inside the `try` block.  The
`try/except Exception` of lines 153-164 maps the error case to the
`"LLM error: "` string and the success case to the stripped content. -/
def call_llm (openai_available : Bool) (api_key : Option String)
    (model context_text question : String)
    (remote : String → List (String × String) → Except String String) : String :=
  if !openai_available then
    "OpenAI SDK not found. Run: pip install openai>=1.0.0"
  else if !(pyTruthy api_key) then
    "No API key provided. Add it in the sidebar or set OPENAI_API_KEY."
  else
    match remote model (compose_messages context_text question) with
    | Except.ok content => pyStrip content
    | Except.error e => "LLM error: " ++ e

/-- Outcome of the ask-button handler: nothing happened, a warning was shown,
or an answer string was displayed. -/
inductive AskOutcome where
  | noAction
  | warned (msg : String)
  | answered (answer : String)
deriving DecidableEq

/-- The ask-button handler of app.py lines 166-173: when the button was
pressed and the stripped question is falsy, show a warning; otherwise call
`call_llm` and display the result. -/
def on_ask (ask : Bool) (openai_available : Bool) (api_key : Option String)
    (model_name context_text question : String)
    (remote : String → List (String × String) → Except String String) : AskOutcome :=
  if !ask then AskOutcome.noAction
  else if (pyStrip question).isEmpty then
    AskOutcome.warned "Please type or select a question."
  else
    AskOutcome.answered (call_llm openai_available api_key model_name context_text question remote)

/-- A remote call that always fails, for concrete instantiations. -/
def failingRemote : String → List (String × String) → Except String String :=
  fun _ _ => Except.error "boom"

/-- A remote call that always succeeds, for concrete instantiations. -/
def stubRemote : String → List (String × String) → Except String String :=
  fun _ _ => Except.ok "an answer"

/-- A deterministic extractor keyed by path and mtime, for concrete
instantiations of the cache contract. -/
def extractStub : String → Int → List String :=
  fun path mtime => [path ++ ":" ++ toString mtime]

/-- A string with a non-empty left append component is non-empty. -/
theorem string_append_ne_empty (s t : String) (h : s ≠ "") : s ++ t ≠ "" := by
  intro hc
  apply h
  have hd := congrArg String.data hc
  rw [String.data_append] at hd
  have hs : s.data = [] := (List.append_eq_nil.mp hd).1
  cases s
  simp_all

/-- Every entry of the context-window list starts with a bracketed label and
is therefore non-empty, so the truthiness filter of line 88 keeps all of them. -/
theorem context_texts_filter_eq (pages : List String) (i : Nat) :
    (context_texts pages i).filter (fun t => decide (t ≠ "")) = context_texts pages i := by
  apply List.filter_eq_self.mpr
  intro a ha
  have hane : a ≠ "" := by
    unfold context_texts at ha
    rcases List.mem_append.mp ha with h | h
    · rcases List.mem_append.mp h with h | h
      · split at h
        · rcases List.mem_singleton.mp h with rfl
          exact string_append_ne_empty _ _
            (string_append_ne_empty _ _ (string_append_ne_empty _ _ (by decide)))
        · exact absurd h (List.not_mem_nil a)
      · rcases List.mem_singleton.mp h with rfl
        exact string_append_ne_empty _ _
          (string_append_ne_empty _ _ (string_append_ne_empty _ _ (by decide)))
    · split at h
      · rcases List.mem_singleton.mp h with rfl
        exact string_append_ne_empty _ _
          (string_append_ne_empty _ _ (string_append_ne_empty _ _ (by decide)))
      · exact absurd h (List.not_mem_nil a)
  exact decide_eq_true hane

/-- C1: for every non-empty list of page texts of length N and every selected
index i with 1 ≤ i ≤ N, the context window is the join, by the fixed separator,
of the Prev entry (present iff i > 1), the Current entry (always), and the Next
entry (present iff i < N), in that order, each holding the corresponding page
text under its bracketed label; for N = 1 the output is only the Current entry,
with no separator. -/
theorem c1_context_window (pages : List String) (i : Nat)
    (h1 : 1 ≤ i) (h2 : i ≤ pages.length) :
    (context_text pages i =
      String.intercalate "\n\n-----\n\n"
        ((if 1 < i then
            ["[Prev: Page " ++ toString (i - 1) ++ "]\n" ++ pages.getD (i - 2) ""]
          else []) ++
          ["[Current: Page " ++ toString i ++ "]\n" ++ pages.getD (i - 1) ""] ++
          (if i < pages.length then
            ["[Next: Page " ++ toString (i + 1) ++ "]\n" ++ pages.getD i ""]
          else []))) ∧
    (pages.length = 1 →
      context_text pages i = "[Current: Page 1]\n" ++ pages.getD 0 "") := by
  constructor
  · unfold context_text
    rw [context_texts_filter_eq]
    rfl
  · intro hN
    have hi : i = 1 := le_antisymm (hN ▸ h2) h1
    subst hi
    unfold context_text
    rw [context_texts_filter_eq]
    unfold context_texts
    rw [hN]
    norm_num
    have hlab : ("[Current: Page " ++ toString (1 : Nat) ++ "]\n" : String)
        = "[Current: Page 1]\n" := by decide
    rw [hlab]
    rfl

/-- C1 witness: a single-page document yields exactly the Current entry. -/
theorem c1_witness :
    1 ≤ 1 ∧ (1 : Nat) ≤ List.length ["solo"] ∧ List.length ["solo"] = 1 ∧
    context_text ["solo"] 1 = "[Current: Page 1]\n" ++ List.getD ["solo"] 0 "" :=
  ⟨by decide, by decide, by decide,
    (c1_context_window ["solo"] 1 (by decide) (by decide)).2 (by decide)⟩

/-- C2: the truthiness filter never drops an entry — an in-range page with
empty extracted text still contributes its labeled entry — and the number of
entries depends only on which neighbors are in range, never on page contents. -/
theorem c2_empty_pages_included (pages : List String) (i : Nat)
    (_h1 : 1 ≤ i) (_h2 : i ≤ pages.length) :
    ((context_texts pages i).filter (fun t => decide (t ≠ "")) = context_texts pages i) ∧
    (context_texts pages i).length =
      (if 1 < i then 1 else 0) + 1 + (if i < pages.length then 1 else 0) := by
  refine ⟨context_texts_filter_eq pages i, ?_⟩
  unfold context_texts
  by_cases hp : 1 < i <;> by_cases hn : i < pages.length <;> simp [hp, hn]

/-- C2 witness: a two-page document of entirely empty pages, first page
selected — both entries survive the filter. -/
theorem c2_witness :
    1 ≤ 1 ∧ (1 : Nat) ≤ List.length ["", ""] ∧
    (((context_texts ["", ""] 1).filter (fun t => decide (t ≠ "")) = context_texts ["", ""] 1) ∧
      (context_texts ["", ""] 1).length =
        (if 1 < 1 then 1 else 0) + 1 + (if 1 < List.length ["", ""] then 1 else 0)) :=
  ⟨by decide, by decide, c2_empty_pages_included ["", ""] 1 (by decide) (by decide)⟩

/-- C3 counterexample: on an invalid document the extraction failure leaves
the script as an unhandled exception; it is not surfaced through the script's
only document-level visible error message. -/
theorem c3_counterexample :
    load_chapter (Except.error "invalid PDF") = LoadOutcome.uncaughtException "invalid PDF" ∧
    load_chapter (Except.error "invalid PDF") ≠
      LoadOutcome.errorStopped "Couldn\x27t read any pages from this PDF." := by
  constructor <;> decide

/-- C3 amended: an extraction failure on invalid byte content propagates out
of the script as an uncaught exception — the code defines no DocumentReadError
and installs no handler; the script surfaces a visible error message only for
the zero-pages case. -/
theorem c3_amended (e : String) :
    load_chapter (Except.error e) = LoadOutcome.uncaughtException e := rfl

/-- C4: with the SDK present and a truthy credential, any failure of the
remote chat-completion call makes `call_llm` return the failure details behind
the fixed prefix, and the result always carries that prefix. -/
theorem c4_llm_error_string (api_key : Option String)
    (model context_text question e : String)
    (remote : String → List (String × String) → Except String String)
    (hkey : pyTruthy api_key = true)
    (hfail : ∀ m msgs, remote m msgs = Except.error e) :
    call_llm true api_key model context_text question remote = "LLM error: " ++ e ∧
    "LLM error:".data <+: (call_llm true api_key model context_text question remote).data := by
  have hmain : call_llm true api_key model context_text question remote = "LLM error: " ++ e := by
    unfold call_llm
    rw [hkey, hfail]
    rfl
  refine ⟨hmain, ?_⟩
  rw [hmain, String.data_append]
  exact List.IsPrefix.trans (by decide) (List.prefix_append _ _)

/-- C4 witness: a concrete always-failing remote call. -/
theorem c4_witness :
    pyTruthy (some "sk-test") = true ∧
    call_llm true (some "sk-test") "gpt-4o-mini" "ctx" "q" failingRemote = "LLM error: " ++ "boom" :=
  ⟨by decide,
    (c4_llm_error_string (some "sk-test") "gpt-4o-mini" "ctx" "q" "boom" failingRemote
      (by decide) (fun _ _ => rfl)).1⟩

/-- C7: with the SDK present and a falsy credential (missing or empty),
`call_llm` returns the fixed no-credential message, which carries the
recognizable indicator as a leading fragment, for every model, context,
question and remote behavior. -/
theorem c7_no_credential (api_key : Option String)
    (model context_text question : String)
    (remote : String → List (String × String) → Except String String)
    (hkey : pyTruthy api_key = false) :
    call_llm true api_key model context_text question remote =
      "No API key provided. Add it in the sidebar or set OPENAI_API_KEY." ∧
    "No API key".data <+: (call_llm true api_key model context_text question remote).data := by
  have hmain : call_llm true api_key model context_text question remote =
      "No API key provided. Add it in the sidebar or set OPENAI_API_KEY." := by
    unfold call_llm
    rw [hkey]
    rfl
  refine ⟨hmain, ?_⟩
  rw [hmain]
  decide

/-- C7 witness: the credential is absent from the environment. -/
theorem c7_witness :
    pyTruthy none = false ∧
    call_llm true none "gpt-4o-mini" "ctx" "q" stubRemote =
      "No API key provided. Add it in the sidebar or set OPENAI_API_KEY." :=
  ⟨rfl, (c7_no_credential none "gpt-4o-mini" "ctx" "q" stubRemote rfl).1⟩

/-- C9: the system message of every composed prompt is the same fixed string,
independent of the context and question inputs, and it contains the one
canonical fallback sentence for missing information. -/
theorem c9_fallback_stable (ctx q ctx2 q2 : String) :
    (compose_messages ctx q).head? = some ("system", system_prompt) ∧
    (compose_messages ctx q).head? = (compose_messages ctx2 q2).head? ∧
    "I can\x27t find this in the provided pages.".data <:+: system_prompt.data := by
  refine ⟨rfl, ?_, ?_⟩
  · have hA : (compose_messages ctx q).head? = some ("system", system_prompt) := rfl
    have hB : (compose_messages ctx2 q2).head? = some ("system", system_prompt) := rfl
    rw [hA, hB]
  have hinner : "I can\x27t find this in the provided pages.".data <:+:
      ("If the answer is not in the provided text, say: \x27I can\x27t find this in the provided pages.\x27 " : String).data :=
    ⟨"If the answer is not in the provided text, say: \x27".data, "\x27 ".data, by decide⟩
  have houter :
      ("If the answer is not in the provided text, say: \x27I can\x27t find this in the provided pages.\x27 " : String).data
        <:+: system_prompt.data := by
    unfold system_prompt
    rw [String.data_append, String.data_append, String.data_append]
    exact List.infix_append _ _ _
  exact hinner.trans houter

/-- C5: starting from a fresh cache, the first query on (path, m) extracts
once; repeating the same (path, m) returns the equal sequence with no further
extraction; querying the same path with a changed mtime m2 performs a fresh
extraction reflecting the content keyed by m2 and bumps the extraction count. -/
theorem c5_cache_contract (extract : String → Int → List String) (calls0 : Nat)
    (path : String) (m m2 : Int) (hne : m2 ≠ m) :
    (get_or_compute extract ⟨[], calls0⟩ path m).1 = extract path m ∧
    (get_or_compute extract ⟨[], calls0⟩ path m).2.extractions = calls0 + 1 ∧
    (get_or_compute extract (get_or_compute extract ⟨[], calls0⟩ path m).2 path m).1
      = (get_or_compute extract ⟨[], calls0⟩ path m).1 ∧
    (get_or_compute extract (get_or_compute extract ⟨[], calls0⟩ path m).2 path m).2.extractions
      = (get_or_compute extract ⟨[], calls0⟩ path m).2.extractions ∧
    (get_or_compute extract (get_or_compute extract ⟨[], calls0⟩ path m).2 path m2).1
      = extract path m2 ∧
    (get_or_compute extract (get_or_compute extract ⟨[], calls0⟩ path m).2 path m2).2.extractions
      = calls0 + 2 := by
  have hfirst : get_or_compute extract ⟨[], calls0⟩ path m =
      (extract path m, ⟨[((path, m), extract path m)], calls0 + 1⟩) := rfl
  have hsecond : get_or_compute extract ⟨[((path, m), extract path m)], calls0 + 1⟩ path m =
      (extract path m, ⟨[((path, m), extract path m)], calls0 + 1⟩) := by
    unfold get_or_compute
    have hlk : List.lookup (path, m) [((path, m), extract path m)] = some (extract path m) := by
      simp [List.lookup]
    rw [hlk]
  have hthird : get_or_compute extract ⟨[((path, m), extract path m)], calls0 + 1⟩ path m2 =
      (extract path m2,
        ⟨((path, m2), extract path m2) :: [((path, m), extract path m)], calls0 + 2⟩) := by
    unfold get_or_compute
    have hbeq : ((path, m2) == (path, m)) = false := by
      apply beq_eq_false_iff_ne.mpr
      intro hcontra
      exact hne (congrArg Prod.snd hcontra)
    have hlk : List.lookup (path, m2) [((path, m), extract path m)] = none := by
      simp [List.lookup, hbeq]
    rw [hlk]
  rw [hfirst]
  simp [hsecond, hthird]

/-- C5 witness: a concrete deterministic extractor, fresh cache, mtimes 1
then 2. -/
theorem c5_witness :
    ((2 : Int) ≠ (1 : Int)) ∧
    (get_or_compute extractStub (get_or_compute extractStub ⟨[], 0⟩ "ch1.pdf" 1).2 "ch1.pdf" 2).1
      = extractStub "ch1.pdf" 2 :=
  ⟨by decide,
    (c5_cache_contract extractStub 0 "ch1.pdf" 1 2 (by decide)).2.2.2.2.1⟩

/-- The extraction loop is the per-page map of strip composed with the
falsy-default of `extract_text`. -/
theorem read_pdf_pages_eq_map (l : List (Option String)) :
    read_pdf_pages l = l.map (fun p => pyStrip (extractTextOrEmpty p)) := by
  have h : ∀ (l : List (Option String)) (acc : List String),
      l.foldl (fun texts page => texts ++ [pyStrip (extractTextOrEmpty page)]) acc
        = acc ++ l.map (fun p => pyStrip (extractTextOrEmpty p)) := by
    intro l
    induction l with
    | nil => intro acc; simp
    | cons x xs ih =>
        intro acc
        simp only [List.foldl_cons, List.map_cons]
        rw [ih]
        simp
  simpa [read_pdf_pages] using h l []

/-- C6: the extractor returns exactly one string per physical page in order
(the output length equals the page count), each entry being the stripped text
of its page, and a page with no extractable text yields the empty string. -/
theorem c6_extractor_shape (pdfPages : List (Option String)) :
    (read_pdf_pages pdfPages).length = pdfPages.length ∧
    (∀ i, i < pdfPages.length →
      (read_pdf_pages pdfPages).getD i "" = pyStrip (extractTextOrEmpty (pdfPages.getD i none))) ∧
    (∀ i, i < pdfPages.length → pdfPages.getD i none = none →
      (read_pdf_pages pdfPages).getD i "" = "") := by
  have hlen : (read_pdf_pages pdfPages).length = pdfPages.length := by
    rw [read_pdf_pages_eq_map, List.length_map]
  have hidx : ∀ i, i < pdfPages.length →
      (read_pdf_pages pdfPages).getD i ""
        = pyStrip (extractTextOrEmpty (pdfPages.getD i none)) := by
    intro i hi
    rw [read_pdf_pages_eq_map]
    rw [List.getD_eq_getElem?_getD, List.getElem?_map, List.getElem?_eq_getElem hi]
    rw [List.getD_eq_getElem?_getD, List.getElem?_eq_getElem hi]
    rfl
  refine ⟨hlen, hidx, ?_⟩
  intro i hi hnone
  rw [hidx i hi, hnone]
  rfl

/-- C6 witness: a two-page document whose second page has no extractable
text — its entry is present and empty. -/
theorem c6_witness :
    1 < List.length [some "  a ", (none : Option String)] ∧
    (read_pdf_pages [some "  a ", none]).getD 1 "" = "" :=
  ⟨by decide, (c6_extractor_shape [some "  a ", none]).2.2 1 (by decide) rfl⟩

/-- C8: the catalog has exactly 8 entries; selecting any catalog label yields
the catalog's exact fixed string for that label regardless of previously typed
custom text; the custom mode returns the free text unchanged. -/
theorem c8_templates :
    QUESTION_TEMPLATES.length = 8 ∧
    (∀ p ∈ QUESTION_TEMPLATES, ∀ typed, question p.1 typed = p.2) ∧
    (∀ typed, question "Custom question" typed = typed) ∧
    (∀ typed, question "Summarize key points" typed =
      "Summarize the most important ideas on this page in simple bullet points for a 9th grade student.") := by
  refine ⟨rfl, ?_, fun typed => rfl, fun typed => rfl⟩
  intro p hp typed
  fin_cases hp <;> rfl

/-- C8 witness: selecting the summary template overrides previously typed
custom text with the catalog's exact string. -/
theorem c8_witness :
    ("Summarize key points",
      "Summarize the most important ideas on this page in simple bullet points for a 9th grade student.")
      ∈ QUESTION_TEMPLATES ∧
    question "Summarize key points" "previously typed custom text" =
      "Summarize the most important ideas on this page in simple bullet points for a 9th grade student." :=
  ⟨by decide,
    c8_templates.2.1
      ("Summarize key points",
        "Summarize the most important ideas on this page in simple bullet points for a 9th grade student.")
      (by decide) "previously typed custom text"⟩

/-- C10: when the ask button fires with a question that strips to nothing, the
handler shows the warning and its outcome does not depend on the remote call
at all — no request is issued. -/
theorem c10_blank_question (openai_available : Bool) (api_key : Option String)
    (model_name context_text question_text : String)
    (remote remote2 : String → List (String × String) → Except String String)
    (hblank : pyStrip question_text = "") :
    on_ask true openai_available api_key model_name context_text question_text remote
      = AskOutcome.warned "Please type or select a question." ∧
    on_ask true openai_available api_key model_name context_text question_text remote
      = on_ask true openai_available api_key model_name context_text question_text remote2 := by
  have hkey : ∀ r, on_ask true openai_available api_key model_name context_text question_text r
      = AskOutcome.warned "Please type or select a question." := by
    intro r
    unfold on_ask
    rw [hblank]
    rfl
  exact ⟨hkey remote, (hkey remote).trans (hkey remote2).symm⟩

/-- C10 witness: a whitespace-only question. -/
theorem c10_witness :
    pyStrip "   " = "" ∧
    on_ask true true (some "sk-test") "gpt-4o-mini" "ctx" "   " stubRemote
      = AskOutcome.warned "Please type or select a question." :=
  ⟨by decide,
    (c10_blank_question true (some "sk-test") "gpt-4o-mini" "ctx" "   " stubRemote
      stubRemote (by decide)).1⟩
